import Mathlib

/-!
Shallow embedding of the weclapp OCR importer pipeline
(source: src/weclappocr.py).

The script polls a Microsoft Graph mail folder, collects PDF attachments
from all messages, uploads them in one multipart request to a weclapp
endpoint, and then moves the source messages to an archive folder.

Network effects are modelled by oracles: each outbound HTTP interaction is
a function argument describing what the server would answer on a given
attempt.  Exceptions are modelled with explicit result values; the Python
distinction between requests.exceptions.RequestException, which the retry
handlers catch, and a plain Exception, which they do not, is kept as the
two constructors of PyErr.  Every function returns a trace recording the
externally visible effects: HTTP attempts made, sleeps performed, upload
calls issued, and move (archive) calls issued.
-/

namespace Weclappocr

/-- An attachment as returned by the Graph attachments listing:
the odata type tag, the declared content type, the declared file name and
the base64-encoded payload. -/
structure Attachment where
  odataType : String
  contentType : String
  name : String
  contentBytes : String
deriving Repr, DecidableEq

/-- A message as returned by the Graph messages listing; only its id is
used by the script. -/
structure Message where
  id : String
deriving Repr, DecidableEq

/-- A mail folder as returned by the Graph mailFolders listing. -/
structure Folder where
  id : String
  displayName : String
deriving Repr, DecidableEq

/-- One entry of the pdf_attachments dictionary built by
process_attachments: the dictionary key (the multipart field name), and
the value tuple (name, BytesIO(pdf_bytes), application/pdf). -/
structure PdfPart where
  key : String
  filename : String
  payload : List Nat
  partContentType : String
deriving Repr, DecidableEq

/-- A Python exception, distinguishing requests.exceptions.RequestException
(caught by the retry handlers) from a plain Exception (not caught). -/
inductive PyErr where
  | reqErr (msg : String)
  | appErr (msg : String)
deriving Repr, DecidableEq

/-- Python str.lower, modelled character-wise.  (String.toLower of the
library is extensionally the same map but is defined by byte-position
recursion, which blocks definitional evaluation; the character-wise form
keeps concrete runs computable by the kernel.) -/
def lowerStr (s : String) : String := ⟨s.data.map Char.toLower⟩

/-- The attachment filter of process_attachments (line 108): the odata type
must be exactly the fileAttachment tag and contentType.lower() must equal
application/pdf. -/
def isPdfAttachment (a : Attachment) : Bool :=
  a.odataType == "#microsoft.graph.fileAttachment"
    && lowerStr a.contentType == "application/pdf"

/-- The inner loop of process_attachments over the attachments of one
message: each qualifying attachment is decoded and stored under the key
file<counter>; the counter increases by one per stored entry; has_pdf
records whether at least one entry was stored for this message.  Returns
(parts stored, final counter, has_pdf). -/
def extractFromAttachments (b64decode : String → List Nat) :
    List Attachment → Nat → List PdfPart × Nat × Bool
  | [], counter => ([], counter, false)
  | a :: rest, counter =>
    if isPdfAttachment a then
      let part : PdfPart :=
        { key := "file" ++ Nat.repr counter
          filename := a.name
          payload := b64decode a.contentBytes
          partContentType := "application/pdf" }
      let r := extractFromAttachments b64decode rest (counter + 1)
      (part :: r.1, r.2.1, true)
    else
      extractFromAttachments b64decode rest counter

/-- The outer loop of process_attachments over all messages: for each
message the attachments are fetched (attachResp; a failing GET raises and
aborts the whole extraction, since process_attachments has no handler),
its PDF attachments are collected, and the message id is appended to
message_ids_to_archive when has_pdf is set.  Returns
(all parts, message_ids_to_archive, final counter). -/
def extractFromMessages (b64decode : String → List Nat)
    (attachResp : String → Except String (List Attachment)) :
    List Message → Nat → Except String (List PdfPart × List String × Nat)
  | [], counter => .ok ([], [], counter)
  | m :: rest, counter =>
    match attachResp m.id with
    | .error e => .error e
    | .ok atts =>
      let r := extractFromAttachments b64decode atts counter
      match extractFromMessages b64decode attachResp rest r.2.1 with
      | .error e => .error e
      | .ok (parts, ids, counterF) =>
        .ok (r.1 ++ parts, (if r.2.2 then [m.id] else []) ++ ids, counterF)

/-- Decidable equality for Except, used by the trace structures below. -/
instance {ε : Type} {α : Type} [DecidableEq ε] [DecidableEq α] :
    DecidableEq (Except ε α) := fun a b =>
  match a, b with
  | .error e, .error f =>
    if h : e = f then .isTrue (congrArg Except.error h)
    else .isFalse fun hh => h (Except.error.inj hh)
  | .error _, .ok _ => .isFalse fun hh => Except.noConfusion hh
  | .ok _, .error _ => .isFalse fun hh => Except.noConfusion hh
  | .ok x, .ok y =>
    if h : x = y then .isTrue (congrArg Except.ok h)
    else .isFalse fun hh => h (Except.ok.inj hh)

/-- Trace of one call to upload_multiple_to_weclapp: the number of POST
attempts issued, the list of sleep durations performed (each time.sleep(5)
appends a 5), and whether some attempt succeeded.  The function always
returns normally: a final failure is only printed
(Alle Upload-Versuche fehlgeschlagen), never raised. -/
structure UploadTrace where
  attempts : Nat
  sleeps : List Nat
  succeeded : Bool
deriving Repr, DecidableEq

/-- The retry budget used by every retry loop in the script. -/
def max_retries : Nat := 3

/-- The for-loop of upload_multiple_to_weclapp over the attempt numbers of
range(1, max_retries + 1), threading the number of POSTs issued so far and
the sleeps performed so far.  uploadOutcome says whether the POST of a
given attempt succeeds (false models a RequestException, the only
exception the handler sees).  On success the loop breaks immediately;
after a caught failure, the code outside the handler sleeps 5 seconds when
attempt < max_retries and otherwise only prints
Alle Upload-Versuche fehlgeschlagen, so the loop (and the function) ends
normally even when every attempt failed. -/
def uploadLoop (uploadOutcome : Nat → Bool) :
    List Nat → Nat → List Nat → UploadTrace
  | [], attAcc, sleeps => { attempts := attAcc, sleeps := sleeps, succeeded := false }
  | attempt :: rest, attAcc, sleeps =>
    if uploadOutcome attempt then
      { attempts := attAcc + 1, sleeps := sleeps, succeeded := true }
    else if attempt < max_retries then
      uploadLoop uploadOutcome rest (attAcc + 1) (sleeps ++ [5])
    else
      uploadLoop uploadOutcome rest (attAcc + 1) sleeps

/-- upload_multiple_to_weclapp: one multipart POST carrying all collected
PDFs, retried up to max_retries times.  The pdf_attachments argument is
not consulted for control flow beyond being the request body, so the model
takes only the attempt oracle. -/
def upload_multiple_to_weclapp (uploadOutcome : Nat → Bool) : UploadTrace :=
  uploadLoop uploadOutcome (List.range' 1 max_retries) 0 []

/-- Trace of one call to archive_email: the move POSTs issued (message ids)
and the outcome (a raised exception or normal return). -/
structure ArchiveTrace where
  moveCalls : List String
  result : Except PyErr Unit
deriving Repr, DecidableEq

/-- archive_email: lists the mailFolders (archFoldersResp models that GET;
an error is a RequestException raised by raise_for_status), then resolves
the archive folder as the first folder whose display name is Archiv or
Archive.  Python truthiness: a missing folder or an empty id string both
trigger the raise of the plain Exception Archiv-Ordner nicht gefunden.
Only then is the move POST issued; moveOk models its raise_for_status. -/
def archive_email (archFoldersResp : Except String (List Folder))
    (moveOk : String → Bool) (message_id : String) : ArchiveTrace :=
  match archFoldersResp with
  | .error e => { moveCalls := [], result := .error (.reqErr e) }
  | .ok folders =>
    match (folders.find? fun f =>
        f.displayName == "Archiv" || f.displayName == "Archive") with
    | none =>
      { moveCalls := [], result := .error (.appErr "Archiv-Ordner nicht gefunden.") }
    | some f =>
      if f.id == "" then
        { moveCalls := [], result := .error (.appErr "Archiv-Ordner nicht gefunden.") }
      else
        { moveCalls := [message_id]
          result := if moveOk message_id then .ok ()
            else .error (.reqErr ("move fehlgeschlagen: " ++ message_id)) }

/-- The archive loop at the end of process_attachments: archive_email is
called for each collected message id in order, with no handler around the
calls, so the first raised exception aborts the remaining iterations and
propagates.  Returns (move POSTs issued, outcome). -/
def archiveEach (archFoldersResp : Except String (List Folder))
    (moveOk : String → Bool) : List String → List String × Except PyErr Unit
  | [] => ([], .ok ())
  | message_id :: rest =>
    let t := archive_email archFoldersResp moveOk message_id
    match t.result with
    | .error e => (t.moveCalls, .error e)
    | .ok _ =>
      let r := archiveEach archFoldersResp moveOk rest
      (t.moveCalls ++ r.1, r.2)

/-- Trace of one call to process_attachments. -/
structure ProcessTrace where
  uploadCalls : Nat
  uploadTrace : Option UploadTrace
  moveCalls : List String
  result : Except PyErr Unit
deriving Repr, DecidableEq

/-- process_attachments: extract the PDFs of all messages; if the
pdf_attachments dictionary is nonempty, call upload_multiple_to_weclapp
once (which always returns normally, even after exhausting its retries)
and then archive every collected message id; otherwise print
Keine PDF-Anhaenge gefunden and return.  An exception during extraction
or archiving propagates to the caller. -/
def process_attachments (b64decode : String → List Nat)
    (attachResp : String → Except String (List Attachment))
    (uploadOutcome : Nat → Bool)
    (archFoldersResp : Except String (List Folder))
    (moveOk : String → Bool) (messages : List Message) : ProcessTrace :=
  match extractFromMessages b64decode attachResp messages 1 with
  | .error e =>
    { uploadCalls := 0, uploadTrace := none, moveCalls := [], result := .error (.reqErr e) }
  | .ok (parts, message_ids_to_archive, _) =>
    if parts.isEmpty then
      { uploadCalls := 0, uploadTrace := none, moveCalls := [], result := .ok () }
    else
      let ut := upload_multiple_to_weclapp uploadOutcome
      let r := archiveEach archFoldersResp moveOk message_ids_to_archive
      { uploadCalls := 1, uploadTrace := some ut, moveCalls := r.1, result := r.2 }

/-- Trace of one call to authenticate_graph: POST attempts, sleeps, and
either the obtained token or the finally raised plain Exception. -/
structure AuthTrace where
  attempts : Nat
  sleeps : List Nat
  result : Except PyErr String
deriving Repr, DecidableEq

/-- The for-loop of authenticate_graph over the attempt numbers of
range(1, max_retries + 1).  authOutcome gives, per attempt, either the
access token of a successful token POST or the message of the
RequestException it raised.  A success returns at once; a caught failure
sleeps 5 seconds and retries while attempt < max_retries, and on the last
attempt raises a plain Exception naming max_retries.  The empty case
models the implicit return None after the loop; it is unreachable from
authenticate_graph, whose last iteration always returns or raises. -/
def authLoop (authOutcome : Nat → Except String String) :
    List Nat → Nat → List Nat → AuthTrace
  | [], attAcc, sleeps =>
    { attempts := attAcc, sleeps := sleeps
      result := .error (.appErr "Schleife ohne Ergebnis beendet") }
  | attempt :: rest, attAcc, sleeps =>
    match authOutcome attempt with
    | .ok access_token =>
      { attempts := attAcc + 1, sleeps := sleeps, result := .ok access_token }
    | .error e =>
      if attempt < max_retries then
        authLoop authOutcome rest (attAcc + 1) (sleeps ++ [5])
      else
        { attempts := attAcc + 1, sleeps := sleeps
          result := .error (.appErr ("Verbindung zu Microsoft fehlgeschlagen nach "
            ++ Nat.repr max_retries ++ " Versuchen: " ++ e)) }

/-- authenticate_graph: obtain a Graph token with the retry loop. -/
def authenticate_graph (authOutcome : Nat → Except String String) : AuthTrace :=
  authLoop authOutcome (List.range' 1 max_retries) 0 []

/-- Trace of one call to fetch_emails: folders GET attempts, sleeps, the
number of messages GETs actually issued, and the outcome. -/
structure FetchTrace where
  attempts : Nat
  sleeps : List Nat
  messageListCalls : Nat
  result : Except PyErr (List Message)
deriving Repr, DecidableEq

/-- The retry loop of fetch_emails.  Per attempt: GET the mailFolders
(foldersResp; an error is a caught RequestException), resolve the source
folder as the first folder whose display name equals FOLDER_NAME (Python
truthiness: no match or an empty id both raise a plain Exception
Ordner nicht gefunden, which the handler does not catch, so it propagates
at once), then GET the messages of that folder (messagesResp; an error is
a caught RequestException).  A caught exception sleeps 5 seconds and
retries while attempt < max_retries, and on the last attempt raises a
plain Exception naming max_retries. -/
def fetchLoop (FOLDER_NAME : String)
    (foldersResp : Nat → Except String (List Folder))
    (messagesResp : Nat → Except String (List Message)) :
    List Nat → Nat → List Nat → Nat → FetchTrace
  | [], attAcc, sleeps, listCalls =>
    { attempts := attAcc, sleeps := sleeps, messageListCalls := listCalls
      result := .error (.appErr "Schleife ohne Ergebnis beendet") }
  | attempt :: rest, attAcc, sleeps, listCalls =>
    match foldersResp attempt with
    | .error e =>
      if attempt < max_retries then
        fetchLoop FOLDER_NAME foldersResp messagesResp rest (attAcc + 1)
          (sleeps ++ [5]) listCalls
      else
        { attempts := attAcc + 1, sleeps := sleeps, messageListCalls := listCalls
          result := .error (.appErr ("E-Mails konnten nach " ++ Nat.repr max_retries
            ++ " Versuchen nicht abgerufen werden: " ++ e)) }
    | .ok folders =>
      match (folders.find? fun f => f.displayName == FOLDER_NAME) with
      | none =>
        { attempts := attAcc + 1, sleeps := sleeps, messageListCalls := listCalls
          result := .error (.appErr ("Ordner " ++ FOLDER_NAME ++ " nicht gefunden.")) }
      | some f =>
        if f.id == "" then
          { attempts := attAcc + 1, sleeps := sleeps, messageListCalls := listCalls
            result := .error (.appErr ("Ordner " ++ FOLDER_NAME ++ " nicht gefunden.")) }
        else
          match messagesResp attempt with
          | .error e =>
            if attempt < max_retries then
              fetchLoop FOLDER_NAME foldersResp messagesResp rest (attAcc + 1)
                (sleeps ++ [5]) (listCalls + 1)
            else
              { attempts := attAcc + 1, sleeps := sleeps
                messageListCalls := listCalls + 1
                result := .error (.appErr ("E-Mails konnten nach "
                  ++ Nat.repr max_retries
                  ++ " Versuchen nicht abgerufen werden: " ++ e)) }
          | .ok messages =>
            { attempts := attAcc + 1, sleeps := sleeps
              messageListCalls := listCalls + 1
              result := .ok messages }

/-- fetch_emails: resolve the source folder and list its messages, with
the retry loop. -/
def fetch_emails (FOLDER_NAME : String)
    (foldersResp : Nat → Except String (List Folder))
    (messagesResp : Nat → Except String (List Message)) : FetchTrace :=
  fetchLoop FOLDER_NAME foldersResp messagesResp (List.range' 1 max_retries) 0 [] 0

/-- All external behavior one run can observe, as oracles. -/
structure Env where
  authOutcome : Nat → Except String String
  FOLDER_NAME : String
  foldersResp : Nat → Except String (List Folder)
  messagesResp : Nat → Except String (List Message)
  b64decode : String → List Nat
  attachResp : String → Except String (List Attachment)
  uploadOutcome : Nat → Bool
  archFoldersResp : Except String (List Folder)
  moveOk : String → Bool

/-- Trace of one call to main: the sub-traces of the steps actually
reached and the exception caught by the top-level handler, if any.  main
catches every exception (printing Fehler im Hauptablauf), so it never
raises. -/
structure MainTrace where
  auth : AuthTrace
  fetch : Option FetchTrace
  proc : Option ProcessTrace
  caught : Option PyErr
deriving Repr, DecidableEq

/-- main: authenticate, fetch the messages, and, when the message list is
nonempty (Python truthiness of the list), process the attachments; any
exception from these steps is caught and printed by the surrounding
handler. -/
def main (env : Env) : MainTrace :=
  let a := authenticate_graph env.authOutcome
  match a.result with
  | .error e => { auth := a, fetch := none, proc := none, caught := some e }
  | .ok _ =>
    let f := fetch_emails env.FOLDER_NAME env.foldersResp env.messagesResp
    match f.result with
    | .error e => { auth := a, fetch := some f, proc := none, caught := some e }
    | .ok messages =>
      if messages.isEmpty then
        { auth := a, fetch := some f, proc := none, caught := none }
      else
        let p := process_attachments env.b64decode env.attachResp env.uploadOutcome
          env.archFoldersResp env.moveOk messages
        match p.result with
        | .error e => { auth := a, fetch := some f, proc := some p, caught := some e }
        | .ok _ => { auth := a, fetch := some f, proc := some p, caught := none }

/-- Number of upload calls issued by a run. -/
def MainTrace.uploadCalls (t : MainTrace) : Nat :=
  match t.proc with
  | some p => p.uploadCalls
  | none => 0

/-- Move (archive) POSTs issued by a run. -/
def MainTrace.moveCalls (t : MainTrace) : List String :=
  match t.proc with
  | some p => p.moveCalls
  | none => []

/-- The /run Flask route: it calls main() (which swallows every error) and
then unconditionally returns the body Script ausgefuehrt with HTTP
status 200. -/
def run (env : Env) : MainTrace × String × Nat :=
  (main env, "Script ausgefuehrt", 200)

/-! Concrete fixtures used by witnesses and counterexamples. -/

/-- A base64 decoder stand-in for concrete runs; the decoded bytes play no
role in any claim. -/
def dec0 : String → List Nat := fun _ => []

def srcFolder : Folder := { id := "fid-src", displayName := "Inbox" }

def archFolder : Folder := { id := "fid-arch", displayName := "Archiv" }

/-- A PDF file attachment whose declared name has no .pdf extension. -/
def attInvoice : Attachment :=
  { odataType := "#microsoft.graph.fileAttachment"
    contentType := "application/pdf"
    name := "invoice"
    contentBytes := "JVBERi0x" }

/-- A PDF file attachment with mixed-case declared content type. -/
def attMixedCase : Attachment :=
  { odataType := "#microsoft.graph.fileAttachment"
    contentType := "Application/PDF"
    name := "scan.pdf"
    contentBytes := "JVBERi0x" }

/-- An item attachment (not a file attachment) with PDF content type. -/
def attItem : Attachment :=
  { odataType := "#microsoft.graph.itemAttachment"
    contentType := "application/pdf"
    name := "note"
    contentBytes := "AAAA" }

def msgM1 : Message := ⟨"m1"⟩

def msgM2 : Message := ⟨"m2"⟩

/-- The attachment oracle of the C9 witness run: message m1 carries a
mixed-case PDF and an item attachment, every other message only the item
attachment. -/
def attachRespC9 : String → Except String (List Attachment) :=
  fun mid => if mid == "m1" then .ok [attMixedCase, attItem] else .ok [attItem]

/-- The two entries extracted in Scenario B (one message, two identically
named extensionless PDFs). -/
def partsB : List PdfPart :=
  [ { key := "file1", filename := "invoice", payload := []
      partContentType := "application/pdf" },
    { key := "file2", filename := "invoice", payload := []
      partContentType := "application/pdf" } ]

/-- Ends case-insensitively with the PDF extension (the property the spec
ascribes to every recorded filename). -/
def endsWithPdf (s : String) : Bool :=
  ".pdf".data.isSuffixOf (lowerStr s).data

/-! Run-level fixtures. -/

/-- A run with an empty source folder. -/
def env0 : Env :=
  { authOutcome := fun _ => .ok "token"
    FOLDER_NAME := "Inbox"
    foldersResp := fun _ => .ok [srcFolder, archFolder]
    messagesResp := fun _ => .ok []
    b64decode := dec0
    attachResp := fun _ => .ok []
    uploadOutcome := fun _ => true
    archFoldersResp := .ok [srcFolder, archFolder]
    moveOk := fun _ => true }

/-- A run with one message carrying one PDF whose upload fails on all
three attempts; the archive folder exists and moves would succeed. -/
def env1 : Env :=
  { env0 with
    messagesResp := fun _ => .ok [msgM1]
    attachResp := fun _ => .ok [attInvoice]
    uploadOutcome := fun _ => false }

/-- A run with one message carrying one PDF, a succeeding upload, and no
archive folder in the mailbox. -/
def env3 : Env :=
  { env0 with
    foldersResp := fun _ => .ok [srcFolder]
    messagesResp := fun _ => .ok [msgM1]
    attachResp := fun _ => .ok [attInvoice]
    archFoldersResp := .ok [srcFolder] }

/-- A run whose mailbox has no folder named like the source folder. -/
def env3a : Env :=
  { env0 with foldersResp := fun _ => .ok [archFolder] }

/-- A run whose token endpoint never answers successfully. -/
def envAuthFail : Env :=
  { env0 with authOutcome := fun _ => .error "timeout" }

/-- A run with two messages, each carrying one PDF; the move of m1 fails,
the move of m2 would succeed. -/
def env6 : Env :=
  { env0 with
    messagesResp := fun _ => .ok [msgM1, msgM2]
    attachResp := fun _ => .ok [attInvoice]
    moveOk := fun mid => mid != "m1" }

/-- The single entry extracted from one invoice attachment. -/
def partsInv : List PdfPart :=
  [{ key := "file1", filename := "invoice", payload := []
     partContentType := "application/pdf" }]

/-! Injectivity of the decimal key rendering.  The upload keys are the
strings file1, file2, ... built with Nat.repr, so distinctness of the keys
reduces to injectivity of Nat.repr, proved here by exhibiting the decimal
value of the rendered digit list. -/

/-- Decimal value of a digit-character list, most significant digit
first. -/
def valOfDigits (l : List Char) : Nat :=
  l.foldl (fun a c => a * 10 + (c.toNat - 48)) 0

theorem valOfDigits_append_single (L : List Char) (c : Char) :
    valOfDigits (L ++ [c]) = valOfDigits L * 10 + (c.toNat - 48) := by
  simp [valOfDigits, List.foldl_append]

theorem digitChar_val : ∀ d : Nat, d < 10 → (Nat.digitChar d).toNat - 48 = d := by
  decide

theorem toDigitsCore_append_acc (b : Nat) :
    ∀ (f n : Nat) (L : List Char),
      Nat.toDigitsCore b f n L = Nat.toDigitsCore b f n [] ++ L
  | 0, _, _ => by simp [Nat.toDigitsCore]
  | f + 1, n, L => by
    simp only [Nat.toDigitsCore]
    by_cases h : n / b = 0
    · simp [h]
    · simp only [h, if_false]
      rw [toDigitsCore_append_acc b f (n / b) (Nat.digitChar (n % b) :: L),
        toDigitsCore_append_acc b f (n / b) [Nat.digitChar (n % b)]]
      simp

theorem valOfDigits_toDigitsCore :
    ∀ (n f : Nat), n < f → valOfDigits (Nat.toDigitsCore 10 f n []) = n := by
  intro n
  induction n using Nat.strong_induction_on with
  | _ n ih =>
    intro f hf
    match f, hf with
    | f + 1, hf =>
      simp only [Nat.toDigitsCore]
      by_cases h : n / 10 = 0
      · have hn : n < 10 := by omega
        simp only [h, if_true]
        have : valOfDigits [Nat.digitChar (n % 10)]
            = (Nat.digitChar (n % 10)).toNat - 48 := by
          simp [valOfDigits]
        rw [this, digitChar_val _ (Nat.mod_lt _ (by omega))]
        omega
      · simp only [h, if_false]
        rw [toDigitsCore_append_acc 10 f (n / 10) [Nat.digitChar (n % 10)],
          valOfDigits_append_single]
        have hdiv : n / 10 < n := Nat.div_lt_self (by omega) (by omega)
        rw [ih (n / 10) hdiv f (by omega),
          digitChar_val _ (Nat.mod_lt _ (by omega))]
        omega

theorem Nat.repr_inj {m n : Nat} (h : Nat.repr m = Nat.repr n) : m = n := by
  have hd : Nat.toDigitsCore 10 (m + 1) m [] = Nat.toDigitsCore 10 (n + 1) n [] :=
    congrArg String.data h
  have hm := valOfDigits_toDigitsCore m (m + 1) (Nat.lt_succ_self m)
  have hn := valOfDigits_toDigitsCore n (n + 1) (Nat.lt_succ_self n)
  rw [hd, hn] at hm
  exact hm.symm

theorem fileKey_inj {m n : Nat}
    (h : "file" ++ Nat.repr m = "file" ++ Nat.repr n) : m = n := by
  apply Nat.repr_inj
  have hd := congrArg String.data h
  rw [String.data_append, String.data_append] at hd
  exact String.ext (List.append_cancel_left hd)

/-! Structural lemmas about the extraction phase. -/

theorem extractFromAttachments_cons_pos (b64decode : String → List Nat)
    (a : Attachment) (rest : List Attachment) (c : Nat)
    (h : isPdfAttachment a = true) :
    extractFromAttachments b64decode (a :: rest) c
      = (⟨"file" ++ Nat.repr c, a.name, b64decode a.contentBytes, "application/pdf"⟩
           :: (extractFromAttachments b64decode rest (c + 1)).1,
         (extractFromAttachments b64decode rest (c + 1)).2.1, true) := by
  simp [extractFromAttachments, h]

theorem extractFromAttachments_cons_neg (b64decode : String → List Nat)
    (a : Attachment) (rest : List Attachment) (c : Nat)
    (h : isPdfAttachment a = false) :
    extractFromAttachments b64decode (a :: rest) c
      = extractFromAttachments b64decode rest c := by
  simp [extractFromAttachments, h]

theorem extractFromAttachments_keys (b64decode : String → List Nat) :
    ∀ (atts : List Attachment) (c : Nat),
      (extractFromAttachments b64decode atts c).1.map PdfPart.key
          = (List.range' c (extractFromAttachments b64decode atts c).1.length).map
              (fun i => "file" ++ Nat.repr i)
        ∧ (extractFromAttachments b64decode atts c).2.1
          = c + (extractFromAttachments b64decode atts c).1.length
  | [], c => by simp [extractFromAttachments]
  | a :: rest, c => by
    cases h : isPdfAttachment a with
    | true =>
      have ih := extractFromAttachments_keys b64decode rest (c + 1)
      rw [extractFromAttachments_cons_pos b64decode a rest c h]
      refine ⟨?_, ?_⟩
      · rw [List.length_cons, List.range'_succ, List.map_cons, List.map_cons, ih.1]
      · rw [List.length_cons, ih.2]; omega
    | false =>
      rw [extractFromAttachments_cons_neg b64decode a rest c h]
      exact extractFromAttachments_keys b64decode rest c

theorem extractFromAttachments_filenames (b64decode : String → List Nat) :
    ∀ (atts : List Attachment) (c : Nat),
      (extractFromAttachments b64decode atts c).1.map PdfPart.filename
        = (atts.filter isPdfAttachment).map Attachment.name
  | [], c => by simp [extractFromAttachments]
  | a :: rest, c => by
    cases h : isPdfAttachment a with
    | true =>
      rw [extractFromAttachments_cons_pos b64decode a rest c h,
        List.filter_cons_of_pos h, List.map_cons, List.map_cons,
        extractFromAttachments_filenames b64decode rest (c + 1)]
    | false =>
      rw [extractFromAttachments_cons_neg b64decode a rest c h,
        List.filter_cons_of_neg (by simp [h]),
        extractFromAttachments_filenames b64decode rest c]

theorem extractFromAttachments_hasPdf (b64decode : String → List Nat) :
    ∀ (atts : List Attachment) (c : Nat),
      (extractFromAttachments b64decode atts c).2.2 = atts.any isPdfAttachment
  | [], c => by simp [extractFromAttachments]
  | a :: rest, c => by
    cases h : isPdfAttachment a with
    | true =>
      rw [extractFromAttachments_cons_pos b64decode a rest c h]
      simp [h]
    | false =>
      rw [extractFromAttachments_cons_neg b64decode a rest c h]
      simp only [List.any_cons, h, Bool.false_or]
      exact extractFromAttachments_hasPdf b64decode rest c

theorem extractFromMessages_spec (b64decode : String → List Nat)
    (attachResp : String → Except String (List Attachment)) :
    ∀ (msgs : List Message) (c : Nat) (parts : List PdfPart) (ids : List String)
      (cF : Nat),
      extractFromMessages b64decode attachResp msgs c = .ok (parts, ids, cF) →
      parts.map PdfPart.key
          = (List.range' c parts.length).map (fun i => "file" ++ Nat.repr i)
        ∧ cF = c + parts.length
        ∧ ids = (msgs.filter fun m =>
            match attachResp m.id with
            | .ok atts => atts.any isPdfAttachment
            | .error _ => false).map Message.id
        ∧ parts.map PdfPart.filename
          = (msgs.map fun m =>
              match attachResp m.id with
              | .ok atts => (atts.filter isPdfAttachment).map Attachment.name
              | .error _ => []).flatten
  | [], c, parts, ids, cF => by
    intro h
    simp only [extractFromMessages, Except.ok.injEq, Prod.mk.injEq] at h
    obtain ⟨h1, h2, h3⟩ := h
    subst h1; subst h2; subst h3
    simp
  | m :: rest, c, parts, ids, cF => by
    intro h
    cases ha : attachResp m.id with
    | error e =>
      simp only [extractFromMessages, ha] at h
      exact absurd h (by simp)
    | ok atts =>
      simp only [extractFromMessages, ha] at h
      cases hr : extractFromMessages b64decode attachResp rest
          (extractFromAttachments b64decode atts c).2.1 with
      | error e =>
        rw [hr] at h
        exact absurd h (by simp)
      | ok triple =>
        obtain ⟨parts2, ids2, c2⟩ := triple
        rw [hr] at h
        simp only [Except.ok.injEq, Prod.mk.injEq] at h
        obtain ⟨h1, h2, h3⟩ := h
        subst h1; subst h2; subst h3
        have hA := extractFromAttachments_keys b64decode atts c
        have ih := extractFromMessages_spec b64decode attachResp rest
          (extractFromAttachments b64decode atts c).2.1 parts2 ids2 c2 hr
        refine ⟨?_, ?_, ?_, ?_⟩
        · rw [List.map_append, hA.1, ih.1, hA.2, ← List.map_append,
            List.range'_append_1, List.length_append, Nat.add_comm parts2.length]
        · rw [ih.2.1, hA.2, List.length_append]; omega
        · rw [extractFromAttachments_hasPdf b64decode atts c]
          simp only [List.filter_cons, ha]
          cases hp : atts.any isPdfAttachment with
          | true => simp only [hp, if_true, List.map_cons, ih.2.2.1,
              List.singleton_append]
          | false => simp only [hp, Bool.false_eq_true, if_false, List.nil_append,
              ih.2.2.1]
        · simp only [List.map_cons, List.flatten_cons, ha]
          rw [List.map_append, extractFromAttachments_filenames b64decode atts c,
            ih.2.2.2]

/-! Claim C7. -/

/-- C7: for every run whose extraction succeeds, the generated upload keys
(the multipart field names file1, file2, ...) are pairwise distinct,
whatever the source filenames were and however the PDFs are spread over
the messages. -/
theorem c7_upload_keys_pairwise_distinct (b64decode : String → List Nat)
    (attachResp : String → Except String (List Attachment))
    (msgs : List Message) (parts : List PdfPart) (ids : List String) (cF : Nat)
    (h : extractFromMessages b64decode attachResp msgs 1 = .ok (parts, ids, cF)) :
    (parts.map PdfPart.key).Nodup := by
  have hs := extractFromMessages_spec b64decode attachResp msgs 1 parts ids cF h
  rw [hs.1]
  exact List.Nodup.map (fun a b hab => fileKey_inj hab)
    (List.nodup_range' 1 parts.length)

/-- Witness for C7 at Scenario B: one message with two identically named
extensionless PDF attachments still gets two distinct keys. -/
theorem c7_witness : (partsB.map PdfPart.key).Nodup :=
  c7_upload_keys_pairwise_distinct dec0 (fun _ => .ok [attInvoice, attInvoice])
    [msgM1] partsB ["m1"] 3 (by decide)

/-! Claim C9. -/

/-- C9: an attachment contributes a PdfEntry exactly when its declared
odata kind is the fileAttachment tag and its declared media type equals
the PDF media type after lowercasing; a message id enters the
archive-candidate list exactly when at least one of its attachments
qualifies. -/
theorem c9_qualifying_attachments (b64decode : String → List Nat)
    (attachResp : String → Except String (List Attachment))
    (msgs : List Message) (parts : List PdfPart) (ids : List String) (cF : Nat)
    (h : extractFromMessages b64decode attachResp msgs 1 = .ok (parts, ids, cF)) :
    parts.map PdfPart.filename
        = (msgs.map fun m =>
            match attachResp m.id with
            | .ok atts => ((atts.filter fun a =>
                a.odataType == "#microsoft.graph.fileAttachment"
                  && lowerStr a.contentType == "application/pdf").map Attachment.name)
            | .error _ => []).flatten
      ∧ ids = (msgs.filter fun m =>
          match attachResp m.id with
          | .ok atts => atts.any fun a =>
              a.odataType == "#microsoft.graph.fileAttachment"
                && lowerStr a.contentType == "application/pdf"
          | .error _ => false).map Message.id := by
  have hs := extractFromMessages_spec b64decode attachResp msgs 1 parts ids cF h
  exact ⟨hs.2.2.2, hs.2.2.1⟩

/-- Witness for C9: the mixed-case PDF on m1 qualifies, the item
attachments do not, so only m1 is flagged for archival. -/
theorem c9_witness :
    ([{ key := "file1", filename := "scan.pdf", payload := []
        partContentType := "application/pdf" }].map PdfPart.filename
      = ([msgM1, msgM2].map fun m =>
          match attachRespC9 m.id with
          | .ok atts => ((atts.filter fun a =>
              a.odataType == "#microsoft.graph.fileAttachment"
                && lowerStr a.contentType == "application/pdf").map Attachment.name)
          | .error _ => []).flatten)
    ∧ ["m1"] = ([msgM1, msgM2].filter fun m =>
        match attachRespC9 m.id with
        | .ok atts => atts.any fun a =>
            a.odataType == "#microsoft.graph.fileAttachment"
              && lowerStr a.contentType == "application/pdf"
        | .error _ => false).map Message.id :=
  c9_qualifying_attachments dec0 attachRespC9 [msgM1, msgM2]
    [{ key := "file1", filename := "scan.pdf", payload := []
       partContentType := "application/pdf" }] ["m1"] 2 (by decide)

/-! Claim C4. -/

/-- C4 counterexample: the extensionless attachment name invoice is
recorded verbatim in the PdfEntry; it does not end with the PDF extension
even case-insensitively, so no normalization step exists. -/
theorem c4_counterexample_no_normalization :
    (extractFromAttachments dec0 [attInvoice] 1).1.map PdfPart.filename
        = ["invoice"]
      ∧ endsWithPdf "invoice" = false := by
  decide

/-- C4 (amended): the filename recorded in every PdfEntry is the source
attachment's declared name unchanged (no extension is ever appended), so
recording is trivially idempotent. -/
theorem c4_amended_filename_verbatim (b64decode : String → List Nat)
    (atts : List Attachment) (c : Nat) :
    ∀ p ∈ (extractFromAttachments b64decode atts c).1,
      ∃ a ∈ atts, isPdfAttachment a = true ∧ p.filename = a.name := by
  intro p hp
  have hnames := extractFromAttachments_filenames b64decode atts c
  have hmem : p.filename ∈ (atts.filter isPdfAttachment).map Attachment.name := by
    rw [← hnames]
    exact List.mem_map_of_mem PdfPart.filename hp
  obtain ⟨a, ha, hname⟩ := List.mem_map.mp hmem
  exact ⟨a, (List.mem_filter.mp ha).1, (List.mem_filter.mp ha).2, hname.symm⟩

/-- Witness for C4 (amended) at the concrete extensionless attachment. -/
theorem c4_witness :
    ∃ a ∈ [attInvoice], isPdfAttachment a = true
      ∧ (PdfPart.mk "file1" "invoice" [] "application/pdf").filename = a.name :=
  c4_amended_filename_verbatim dec0 [attInvoice] 1
    (PdfPart.mk "file1" "invoice" [] "application/pdf") (by decide)

/-- The attempt numbers of range(1, max_retries + 1). -/
theorem attemptNumbers : List.range' 1 max_retries = [1, 2, 3] := rfl

/-! Closed forms of the three retry loops, by case analysis over the
oracle answers of the three attempts. -/

theorem authenticate_graph_first_ok (o : Nat → Except String String) (t : String)
    (h1 : o 1 = .ok t) :
    authenticate_graph o = { attempts := 1, sleeps := [], result := .ok t } := by
  simp [authenticate_graph, attemptNumbers, authLoop, h1]

theorem authenticate_graph_second_ok (o : Nat → Except String String)
    (e1 t : String) (h1 : o 1 = .error e1) (h2 : o 2 = .ok t) :
    authenticate_graph o = { attempts := 2, sleeps := [5], result := .ok t } := by
  simp [authenticate_graph, attemptNumbers, authLoop, h1, h2, max_retries]

theorem authenticate_graph_third_ok (o : Nat → Except String String)
    (e1 e2 t : String) (h1 : o 1 = .error e1) (h2 : o 2 = .error e2)
    (h3 : o 3 = .ok t) :
    authenticate_graph o = { attempts := 3, sleeps := [5, 5], result := .ok t } := by
  simp [authenticate_graph, attemptNumbers, authLoop, h1, h2, h3, max_retries]

theorem authenticate_graph_all_fail (o : Nat → Except String String)
    (e1 e2 e3 : String) (h1 : o 1 = .error e1) (h2 : o 2 = .error e2)
    (h3 : o 3 = .error e3) :
    authenticate_graph o
      = { attempts := 3, sleeps := [5, 5],
          result := .error (.appErr ("Verbindung zu Microsoft fehlgeschlagen nach "
            ++ Nat.repr 3 ++ " Versuchen: " ++ e3)) } := by
  simp [authenticate_graph, attemptNumbers, authLoop, h1, h2, h3, max_retries]

theorem fetch_emails_all_transport_fail (N : String)
    (fr : Nat → Except String (List Folder))
    (mr : Nat → Except String (List Message)) (e1 e2 e3 : String)
    (h1 : fr 1 = .error e1) (h2 : fr 2 = .error e2) (h3 : fr 3 = .error e3) :
    fetch_emails N fr mr
      = { attempts := 3, sleeps := [5, 5], messageListCalls := 0,
          result := .error (.appErr ("E-Mails konnten nach " ++ Nat.repr 3
            ++ " Versuchen nicht abgerufen werden: " ++ e3)) } := by
  simp [fetch_emails, attemptNumbers, fetchLoop, h1, h2, h3, max_retries]

theorem fetch_emails_source_missing (N : String)
    (fr : Nat → Except String (List Folder))
    (mr : Nat → Except String (List Message)) (folders : List Folder)
    (h1 : fr 1 = .ok folders) (h2 : ∀ f ∈ folders, ¬ f.displayName = N) :
    fetch_emails N fr mr
      = { attempts := 1, sleeps := [], messageListCalls := 0,
          result := .error (.appErr ("Ordner " ++ N ++ " nicht gefunden.")) } := by
  have hfind : folders.find? (fun f => f.displayName == N) = none := by
    rw [List.find?_eq_none]
    intro f hf
    simp [h2 f hf]
  simp [fetch_emails, attemptNumbers, fetchLoop, h1, hfind]

theorem fetch_emails_first_ok (N : String)
    (fr : Nat → Except String (List Folder))
    (mr : Nat → Except String (List Message)) (folders : List Folder)
    (f : Folder) (msgs : List Message)
    (h1 : fr 1 = .ok folders)
    (hfind : folders.find? (fun g => g.displayName == N) = some f)
    (hid : ¬ f.id = "") (hm : mr 1 = .ok msgs) :
    fetch_emails N fr mr
      = { attempts := 1, sleeps := [], messageListCalls := 1,
          result := .ok msgs } := by
  simp [fetch_emails, attemptNumbers, fetchLoop, h1, hfind, hid, hm]

theorem upload_first_ok (u : Nat → Bool) (h1 : u 1 = true) :
    upload_multiple_to_weclapp u
      = { attempts := 1, sleeps := [], succeeded := true } := by
  simp [upload_multiple_to_weclapp, attemptNumbers, uploadLoop, h1]

theorem upload_second_ok (u : Nat → Bool) (h1 : u 1 = false) (h2 : u 2 = true) :
    upload_multiple_to_weclapp u
      = { attempts := 2, sleeps := [5], succeeded := true } := by
  simp [upload_multiple_to_weclapp, attemptNumbers, uploadLoop, h1, h2, max_retries]

theorem upload_third_ok (u : Nat → Bool) (h1 : u 1 = false) (h2 : u 2 = false)
    (h3 : u 3 = true) :
    upload_multiple_to_weclapp u
      = { attempts := 3, sleeps := [5, 5], succeeded := true } := by
  simp [upload_multiple_to_weclapp, attemptNumbers, uploadLoop, h1, h2, h3,
    max_retries]

theorem upload_all_fail (u : Nat → Bool) (h1 : u 1 = false) (h2 : u 2 = false)
    (h3 : u 3 = false) :
    upload_multiple_to_weclapp u
      = { attempts := 3, sleeps := [5, 5], succeeded := false } := by
  simp [upload_multiple_to_weclapp, attemptNumbers, uploadLoop, h1, h2, h3,
    max_retries]

/-! General bounds on the retry loops: no loop issues more attempts than
the attempt numbers handed to it, and the auth and upload loops sleep
exactly once between consecutive attempts. -/

theorem authLoop_attempts_le (o : Nat → Except String String) :
    ∀ (l : List Nat) (attAcc : Nat) (sleeps : List Nat),
      (authLoop o l attAcc sleeps).attempts ≤ attAcc + l.length
  | [], a, s => by simp [authLoop]
  | att :: rest, a, s => by
    simp only [authLoop]
    cases ho : o att with
    | ok t => simp
    | error e =>
      by_cases h : att < max_retries
      · simp only [h, if_true]
        have ih := authLoop_attempts_le o rest (a + 1) (s ++ [5])
        simp only [List.length_cons]
        omega
      · simp only [h, if_false, List.length_cons]
        omega

theorem uploadLoop_attempts_le (u : Nat → Bool) :
    ∀ (l : List Nat) (attAcc : Nat) (sleeps : List Nat),
      (uploadLoop u l attAcc sleeps).attempts ≤ attAcc + l.length
  | [], a, s => by simp [uploadLoop]
  | att :: rest, a, s => by
    simp only [uploadLoop]
    cases hu : u att with
    | true => simp
    | false =>
      by_cases h : att < max_retries
      · simp only [h, if_true, Bool.false_eq_true, if_false, List.length_cons]
        have ih := uploadLoop_attempts_le u rest (a + 1) (s ++ [5])
        omega
      · simp only [h, if_false, Bool.false_eq_true, List.length_cons]
        have ih := uploadLoop_attempts_le u rest (a + 1) s
        omega

theorem fetchLoop_attempts_le (N : String)
    (fr : Nat → Except String (List Folder))
    (mr : Nat → Except String (List Message)) :
    ∀ (l : List Nat) (attAcc : Nat) (sleeps : List Nat) (listCalls : Nat),
      (fetchLoop N fr mr l attAcc sleeps listCalls).attempts ≤ attAcc + l.length
  | [], a, s, c => by simp [fetchLoop]
  | att :: rest, a, s, c => by
    simp only [fetchLoop]
    cases hf : fr att with
    | error e =>
      by_cases h : att < max_retries
      · simp only [h, if_true, List.length_cons]
        have ih := fetchLoop_attempts_le N fr mr rest (a + 1) (s ++ [5]) c
        omega
      · simp only [h, if_false, List.length_cons]
        omega
    | ok folders =>
      cases hfind : folders.find? (fun g => g.displayName == N) with
      | none => simp [hfind]
      | some f =>
        simp only [hfind]
        cases hid : f.id == "" with
        | true => simp only [hid, if_true, List.length_cons]; omega
        | false =>
          simp only [hid, Bool.false_eq_true, if_false]
          cases hm : mr att with
          | error e =>
            simp only [hm]
            by_cases h : att < max_retries
            · simp only [h, if_true, List.length_cons]
              have ih := fetchLoop_attempts_le N fr mr rest (a + 1) (s ++ [5]) (c + 1)
              omega
            · simp only [h, if_false, List.length_cons]
              omega
          | ok messages => simp [hm]

theorem authenticate_graph_sleeps_between_attempts
    (o : Nat → Except String String) :
    (authenticate_graph o).sleeps
      = List.replicate ((authenticate_graph o).attempts - 1) 5 := by
  cases h1 : o 1 with
  | ok t => rw [authenticate_graph_first_ok o t h1]; rfl
  | error e1 =>
    cases h2 : o 2 with
    | ok t => rw [authenticate_graph_second_ok o e1 t h1 h2]; rfl
    | error e2 =>
      cases h3 : o 3 with
      | ok t => rw [authenticate_graph_third_ok o e1 e2 t h1 h2 h3]; rfl
      | error e3 => rw [authenticate_graph_all_fail o e1 e2 e3 h1 h2 h3]; rfl

theorem upload_sleeps_between_attempts (u : Nat → Bool) :
    (upload_multiple_to_weclapp u).sleeps
      = List.replicate ((upload_multiple_to_weclapp u).attempts - 1) 5 := by
  cases h1 : u 1 with
  | true => rw [upload_first_ok u h1]; rfl
  | false =>
    cases h2 : u 2 with
    | true => rw [upload_second_ok u h1 h2]; rfl
    | false =>
      cases h3 : u 3 with
      | true => rw [upload_third_ok u h1 h2 h3]; rfl
      | false => rw [upload_all_fail u h1 h2 h3]; rfl

/-! Claim C2. -/

/-- C2 counterexample: when every upload attempt fails, the upload loop
completes normally after 3 attempts, the function returns (an UploadTrace,
not a raised error), and process_attachments then carries on archiving:
the final failure was swallowed, not propagated. -/
theorem c2_counterexample_upload_swallows_final_failure :
    upload_multiple_to_weclapp (fun _ => false)
        = { attempts := 3, sleeps := [5, 5], succeeded := false }
      ∧ process_attachments dec0 (fun _ => .ok [attInvoice]) (fun _ => false)
          (.ok [srcFolder, archFolder]) (fun _ => true) [msgM1]
        = { uploadCalls := 1
            uploadTrace := some { attempts := 3, sleeps := [5, 5], succeeded := false }
            moveCalls := ["m1"], result := .ok () } := by
  decide

/-- C2 (amended): every retried HTTP operation attempts the call at most 3
times and returns immediately on a successful response; the authentication
and fetch loops sleep a fixed 5 seconds between consecutive attempts
(never after a success) and on the final attempt raise an error naming the
attempt count; the upload loop has the same attempt and delay behavior but
swallows its final failure, returning normally instead of raising. -/
theorem c2_amended_retry_contract :
    (∀ o : Nat → Except String String, (authenticate_graph o).attempts ≤ 3)
    ∧ (∀ (N : String) (fr : Nat → Except String (List Folder))
        (mr : Nat → Except String (List Message)),
        (fetch_emails N fr mr).attempts ≤ 3)
    ∧ (∀ u : Nat → Bool, (upload_multiple_to_weclapp u).attempts ≤ 3)
    ∧ (∀ o : Nat → Except String String,
        (authenticate_graph o).sleeps
          = List.replicate ((authenticate_graph o).attempts - 1) 5)
    ∧ (∀ u : Nat → Bool,
        (upload_multiple_to_weclapp u).sleeps
          = List.replicate ((upload_multiple_to_weclapp u).attempts - 1) 5)
    ∧ (∀ (o : Nat → Except String String) (t : String), o 1 = .ok t →
        authenticate_graph o = { attempts := 1, sleeps := [], result := .ok t })
    ∧ (∀ (o : Nat → Except String String) (e1 e2 e3 : String),
        o 1 = .error e1 → o 2 = .error e2 → o 3 = .error e3 →
        authenticate_graph o
          = { attempts := 3, sleeps := [5, 5],
              result := .error (.appErr
                ("Verbindung zu Microsoft fehlgeschlagen nach "
                  ++ Nat.repr 3 ++ " Versuchen: " ++ e3)) })
    ∧ (∀ (N : String) (fr : Nat → Except String (List Folder))
        (mr : Nat → Except String (List Message)) (e1 e2 e3 : String),
        fr 1 = .error e1 → fr 2 = .error e2 → fr 3 = .error e3 →
        fetch_emails N fr mr
          = { attempts := 3, sleeps := [5, 5], messageListCalls := 0,
              result := .error (.appErr ("E-Mails konnten nach " ++ Nat.repr 3
                ++ " Versuchen nicht abgerufen werden: " ++ e3)) })
    ∧ (∀ u : Nat → Bool, u 1 = true →
        upload_multiple_to_weclapp u
          = { attempts := 1, sleeps := [], succeeded := true })
    ∧ (∀ u : Nat → Bool, u 1 = false → u 2 = false → u 3 = false →
        upload_multiple_to_weclapp u
          = { attempts := 3, sleeps := [5, 5], succeeded := false }) := by
  refine ⟨?_, ?_, ?_, ?_, ?_, ?_, ?_, ?_, ?_, ?_⟩
  · intro o
    exact le_trans (authLoop_attempts_le o (List.range' 1 max_retries) 0 [])
      (by decide)
  · intro N fr mr
    exact le_trans
      (fetchLoop_attempts_le N fr mr (List.range' 1 max_retries) 0 [] 0)
      (by decide)
  · intro u
    exact le_trans (uploadLoop_attempts_le u (List.range' 1 max_retries) 0 [])
      (by decide)
  · exact authenticate_graph_sleeps_between_attempts
  · exact upload_sleeps_between_attempts
  · exact authenticate_graph_first_ok
  · exact authenticate_graph_all_fail
  · exact fetch_emails_all_transport_fail
  · exact upload_first_ok
  · exact upload_all_fail

/-- Witness for C2 (amended) at concrete oracles: a permanently failing
token endpoint yields the raised error naming the attempt count, and a
first-try upload succeeds with one attempt and no sleep. -/
theorem c2_witness :
    authenticate_graph (fun _ => .error "timeout")
        = { attempts := 3, sleeps := [5, 5],
            result := .error (.appErr
              ("Verbindung zu Microsoft fehlgeschlagen nach "
                ++ Nat.repr 3 ++ " Versuchen: " ++ "timeout")) }
      ∧ upload_multiple_to_weclapp (fun _ => true)
        = { attempts := 1, sleeps := [], succeeded := true } :=
  ⟨c2_amended_retry_contract.2.2.2.2.2.2.1 (fun _ => .error "timeout")
      "timeout" "timeout" "timeout" rfl rfl rfl,
    c2_amended_retry_contract.2.2.2.2.2.2.2.2.1 (fun _ => true) rfl⟩

/-! Helpers for run-level reasoning. -/

theorem extractFromMessages_ids_ne_nil (b64decode : String → List Nat)
    (attachResp : String → Except String (List Attachment))
    (msgs : List Message) (parts : List PdfPart) (ids : List String) (cF : Nat)
    (h : extractFromMessages b64decode attachResp msgs 1 = .ok (parts, ids, cF))
    (hp : parts ≠ []) : ids ≠ [] := by
  have hs := extractFromMessages_spec b64decode attachResp msgs 1 parts ids cF h
  intro hids
  apply hp
  rw [← List.map_eq_nil_iff (f := PdfPart.filename), hs.2.2.2,
    List.flatten_eq_nil_iff]
  intro l hl
  obtain ⟨m, hm, rfl⟩ := List.mem_map.mp hl
  have hfilter := List.filter_eq_nil_iff.mp
    (List.map_eq_nil_iff.mp (hs.2.2.1.symm.trans hids))
  have hnm := hfilter m hm
  cases ha : attachResp m.id with
  | error e => simp [ha]
  | ok atts =>
    simp only [ha] at hnm ⊢
    rw [List.map_eq_nil_iff, List.filter_eq_nil_iff]
    intro a haa
    have hfalse : atts.any isPdfAttachment = false := by
      cases hv : atts.any isPdfAttachment
      · rfl
      · exact absurd hv hnm
    exact (List.any_eq_false.mp hfalse) a haa

theorem process_attachments_with_parts (b64decode : String → List Nat)
    (attachResp : String → Except String (List Attachment))
    (uploadOutcome : Nat → Bool) (archFoldersResp : Except String (List Folder))
    (moveOk : String → Bool) (messages : List Message) (parts : List PdfPart)
    (ids : List String) (cF : Nat)
    (hx : extractFromMessages b64decode attachResp messages 1 = .ok (parts, ids, cF))
    (hp : parts ≠ []) :
    process_attachments b64decode attachResp uploadOutcome archFoldersResp
        moveOk messages
      = { uploadCalls := 1
          uploadTrace := some (upload_multiple_to_weclapp uploadOutcome)
          moveCalls := (archiveEach archFoldersResp moveOk ids).1
          result := (archiveEach archFoldersResp moveOk ids).2 } := by
  have hp' : parts.isEmpty = false := List.isEmpty_eq_false.mpr hp
  simp [process_attachments, hx, hp']

theorem process_attachments_no_parts (b64decode : String → List Nat)
    (attachResp : String → Except String (List Attachment))
    (uploadOutcome : Nat → Bool) (archFoldersResp : Except String (List Folder))
    (moveOk : String → Bool) (messages : List Message)
    (ids : List String) (cF : Nat)
    (hx : extractFromMessages b64decode attachResp messages 1 = .ok ([], ids, cF)) :
    process_attachments b64decode attachResp uploadOutcome archFoldersResp
        moveOk messages
      = { uploadCalls := 0, uploadTrace := none, moveCalls := [], result := .ok () } := by
  simp [process_attachments, hx]

theorem archive_email_folder_missing (afolders : List Folder)
    (moveOk : String → Bool) (mid : String)
    (hfind : afolders.find? (fun f =>
        f.displayName == "Archiv" || f.displayName == "Archive") = none) :
    archive_email (.ok afolders) moveOk mid
      = { moveCalls := []
          result := .error (.appErr "Archiv-Ordner nicht gefunden.") } := by
  simp [archive_email, hfind]

theorem archiveEach_folder_missing (afolders : List Folder)
    (moveOk : String → Bool) (id0 : String) (rest : List String)
    (hfind : afolders.find? (fun f =>
        f.displayName == "Archiv" || f.displayName == "Archive") = none) :
    archiveEach (.ok afolders) moveOk (id0 :: rest)
      = ([], .error (.appErr "Archiv-Ordner nicht gefunden.")) := by
  simp [archiveEach, archive_email_folder_missing afolders moveOk id0 hfind]

theorem archiveEach_first_move_fails (afolders : List Folder)
    (moveOk : String → Bool) (id0 : String) (rest : List String) (f : Folder)
    (hfind : afolders.find? (fun g =>
        g.displayName == "Archiv" || g.displayName == "Archive") = some f)
    (hid : ¬ f.id = "") (hmv : moveOk id0 = false) :
    archiveEach (.ok afolders) moveOk (id0 :: rest)
      = ([id0], .error (.reqErr ("move fehlgeschlagen: " ++ id0))) := by
  simp [archiveEach, archive_email, hfind, hid, hmv]

theorem main_fetch_error (env : Env) (tok : String) (e : PyErr)
    (ha : (authenticate_graph env.authOutcome).result = .ok tok)
    (hf : (fetch_emails env.FOLDER_NAME env.foldersResp env.messagesResp).result
      = .error e) :
    main env
      = { auth := authenticate_graph env.authOutcome
          fetch := some (fetch_emails env.FOLDER_NAME env.foldersResp env.messagesResp)
          proc := none, caught := some e } := by
  simp [main, ha, hf]

theorem main_no_messages (env : Env) (tok : String)
    (ha : (authenticate_graph env.authOutcome).result = .ok tok)
    (hf : (fetch_emails env.FOLDER_NAME env.foldersResp env.messagesResp).result
      = .ok []) :
    main env
      = { auth := authenticate_graph env.authOutcome
          fetch := some (fetch_emails env.FOLDER_NAME env.foldersResp env.messagesResp)
          proc := none, caught := none } := by
  simp [main, ha, hf]

theorem main_with_messages (env : Env) (tok : String) (msgs : List Message)
    (ha : (authenticate_graph env.authOutcome).result = .ok tok)
    (hf : (fetch_emails env.FOLDER_NAME env.foldersResp env.messagesResp).result
      = .ok msgs)
    (hne : msgs ≠ []) :
    main env
      = { auth := authenticate_graph env.authOutcome
          fetch := some (fetch_emails env.FOLDER_NAME env.foldersResp env.messagesResp)
          proc := some (process_attachments env.b64decode env.attachResp
            env.uploadOutcome env.archFoldersResp env.moveOk msgs)
          caught :=
            match (process_attachments env.b64decode env.attachResp
                env.uploadOutcome env.archFoldersResp env.moveOk msgs).result with
            | .error e => some e
            | .ok _ => none } := by
  have hne' : msgs.isEmpty = false := List.isEmpty_eq_false.mpr hne
  cases hp : (process_attachments env.b64decode env.attachResp
      env.uploadOutcome env.archFoldersResp env.moveOk msgs).result with
  | error e => simp [main, ha, hf, hne', hp]
  | ok u => simp [main, ha, hf, hne', hp]

/-! Claim C1. -/

/-- C1: evaluation at the failing input (one message with one PDF, all
three upload attempts fail).  The upload never succeeded, yet the move
call for m1 is still issued, because upload_multiple_to_weclapp swallows
the exhausted-retries failure and process_attachments archives
unconditionally afterwards. -/
theorem c1_failed_upload_still_archives :
    (main env1).proc
        = some { uploadCalls := 1
                 uploadTrace := some { attempts := 3, sleeps := [5, 5]
                                       succeeded := false }
                 moveCalls := ["m1"], result := .ok () }
      ∧ (main env1).moveCalls = ["m1"]
      ∧ (main env1).caught = none := by
  decide

/-! Claim C3. -/

/-- C3 counterexample: with the archive folder absent but the source
folder present, the run does not abort before the upload: the upload call
is issued, and only afterwards does the lazy archive-folder resolution
inside archive_email raise its not-found error. -/
theorem c3_counterexample_upload_before_archive_resolution :
    (main env3).uploadCalls = 1
      ∧ (main env3).moveCalls = []
      ∧ (main env3).caught = some (.appErr "Archiv-Ordner nicht gefunden.") := by
  decide

/-- C3 (amended): the source folder is resolved up front inside
fetch_emails, so its absence aborts the run before any upload or move; the
archive folder however is resolved lazily inside each archive_email call,
after the batch upload has already been issued: its absence surfaces only
then, aborting the moves but not the upload. -/
theorem c3_amended_source_up_front_archive_lazy :
    (∀ (env : Env) (tok : String) (folders : List Folder),
      (authenticate_graph env.authOutcome).result = .ok tok →
      env.foldersResp 1 = .ok folders →
      (∀ f ∈ folders, ¬ f.displayName = env.FOLDER_NAME) →
      (main env).uploadCalls = 0 ∧ (main env).moveCalls = []
        ∧ (main env).caught
          = some (.appErr ("Ordner " ++ env.FOLDER_NAME ++ " nicht gefunden.")))
    ∧ (∀ (env : Env) (tok : String) (msgs : List Message) (parts : List PdfPart)
        (ids : List String) (cF : Nat) (afolders : List Folder),
      (authenticate_graph env.authOutcome).result = .ok tok →
      (fetch_emails env.FOLDER_NAME env.foldersResp env.messagesResp).result
        = .ok msgs →
      msgs ≠ [] →
      extractFromMessages env.b64decode env.attachResp msgs 1 = .ok (parts, ids, cF) →
      parts ≠ [] →
      env.archFoldersResp = .ok afolders →
      (∀ f ∈ afolders, ¬ f.displayName = "Archiv" ∧ ¬ f.displayName = "Archive") →
      (main env).uploadCalls = 1 ∧ (main env).moveCalls = []
        ∧ (main env).caught = some (.appErr "Archiv-Ordner nicht gefunden.")) := by
  constructor
  · intro env tok folders ha h1 h2
    have hfe := fetch_emails_source_missing env.FOLDER_NAME env.foldersResp
      env.messagesResp folders h1 h2
    have hr : (fetch_emails env.FOLDER_NAME env.foldersResp env.messagesResp).result
        = .error (.appErr ("Ordner " ++ env.FOLDER_NAME ++ " nicht gefunden.")) := by
      rw [hfe]
    rw [main_fetch_error env tok _ ha hr]
    exact ⟨rfl, rfl, rfl⟩
  · intro env tok msgs parts ids cF afolders ha hf hm hx hp har hnone
    have hids := extractFromMessages_ids_ne_nil env.b64decode env.attachResp
      msgs parts ids cF hx hp
    have hfind : afolders.find? (fun f =>
        f.displayName == "Archiv" || f.displayName == "Archive") = none := by
      rw [List.find?_eq_none]
      intro f hfm
      simp [(hnone f hfm).1, (hnone f hfm).2]
    cases ids with
    | nil => exact absurd rfl hids
    | cons id0 rest =>
      rw [main_with_messages env tok msgs ha hf hm]
      rw [process_attachments_with_parts env.b64decode env.attachResp
        env.uploadOutcome env.archFoldersResp env.moveOk msgs parts
        (id0 :: rest) cF hx hp]
      rw [har, archiveEach_folder_missing afolders env.moveOk id0 rest hfind]
      exact ⟨rfl, rfl, rfl⟩

/-- Witness for C3 (amended) at the concrete runs env3a (source folder
absent) and env3 (archive folder absent). -/
theorem c3_witness :
    ((main env3a).uploadCalls = 0 ∧ (main env3a).moveCalls = []
      ∧ (main env3a).caught
        = some (.appErr ("Ordner " ++ env3a.FOLDER_NAME ++ " nicht gefunden.")))
    ∧ ((main env3).uploadCalls = 1 ∧ (main env3).moveCalls = []
      ∧ (main env3).caught = some (.appErr "Archiv-Ordner nicht gefunden.")) :=
  ⟨c3_amended_source_up_front_archive_lazy.1 env3a "token" [archFolder]
      (by decide) rfl (by decide),
    c3_amended_source_up_front_archive_lazy.2 env3 "token" [msgM1] partsInv
      ["m1"] 2 [srcFolder] (by decide) (by decide) (by decide) (by decide)
      (by decide) rfl (by decide)⟩

/-! Claim C5. -/

/-- C5 counterexample: a run whose authentication fails fatally and a run
that completes cleanly produce the identical HTTP response from the /run
route, so the two outcomes are not distinguishable by response code. -/
theorem c5_counterexample_same_response :
    (run envAuthFail).2 = ("Script ausgefuehrt", 200)
      ∧ (run env0).2 = ("Script ausgefuehrt", 200)
      ∧ (main envAuthFail).caught ≠ none
      ∧ (main env0).caught = none := by
  decide

/-- C5 (amended): the /run route always answers with the fixed body and
HTTP status 200, whatever the run did, because main catches every
exception internally and run returns an unconditional constant. -/
theorem c5_amended_run_always_200 :
    ∀ env : Env, (run env).2 = ("Script ausgefuehrt", 200) :=
  fun _ => rfl

/-- Witness for C5 (amended) at the clean run env0. -/
theorem c5_witness : (run env0).2 = ("Script ausgefuehrt", 200) :=
  c5_amended_run_always_200 env0

/-! Claim C6. -/

/-- C6 counterexample: both m1 and m2 are archive candidates; the move of
m1 fails, and no move call for m2 is ever issued: the per-message archive
failure aborts the remaining archive attempts (the exception propagates to
the top-level handler of main, which merely logs it). -/
theorem c6_counterexample_archive_failure_aborts_sibling :
    extractFromMessages env6.b64decode env6.attachResp [msgM1, msgM2] 1
        = .ok (partsB, ["m1", "m2"], 3)
      ∧ (main env6).moveCalls = ["m1"]
      ∧ (main env6).caught = some (.reqErr "move fehlgeschlagen: m1") := by
  decide

/-- C6 (amended): when archiving the first candidate fails, the raised
exception aborts the archive attempts for the remaining candidates; it is
caught by the top-level handler of main (and only logged), so the run as a
whole does not raise and the /run trigger still reports 200. -/
theorem c6_amended_failure_aborts_siblings_but_not_run (env : Env)
    (tok : String) (msgs : List Message) (parts : List PdfPart) (id1 : String)
    (ids' : List String) (cF : Nat) (afolders : List Folder) (f : Folder)
    (ha : (authenticate_graph env.authOutcome).result = .ok tok)
    (hf : (fetch_emails env.FOLDER_NAME env.foldersResp env.messagesResp).result
      = .ok msgs)
    (hm : msgs ≠ [])
    (hx : extractFromMessages env.b64decode env.attachResp msgs 1
      = .ok (parts, id1 :: ids', cF))
    (hp : parts ≠ [])
    (har : env.archFoldersResp = .ok afolders)
    (hfind : afolders.find? (fun g =>
        g.displayName == "Archiv" || g.displayName == "Archive") = some f)
    (hid : ¬ f.id = "")
    (hmv : env.moveOk id1 = false) :
    (main env).moveCalls = [id1]
      ∧ (main env).caught = some (.reqErr ("move fehlgeschlagen: " ++ id1))
      ∧ (run env).2 = ("Script ausgefuehrt", 200) := by
  rw [main_with_messages env tok msgs ha hf hm]
  rw [process_attachments_with_parts env.b64decode env.attachResp
    env.uploadOutcome env.archFoldersResp env.moveOk msgs parts
    (id1 :: ids') cF hx hp]
  rw [har, archiveEach_first_move_fails afolders env.moveOk id1 ids' f hfind hid hmv]
  exact ⟨rfl, rfl, rfl⟩

/-- Witness for C6 (amended) at the concrete two-candidate run env6. -/
theorem c6_witness :
    (main env6).moveCalls = ["m1"]
      ∧ (main env6).caught = some (.reqErr ("move fehlgeschlagen: " ++ "m1"))
      ∧ (run env6).2 = ("Script ausgefuehrt", 200) :=
  c6_amended_failure_aborts_siblings_but_not_run env6 "token" [msgM1, msgM2]
    partsB "m1" ["m2"] 3 [srcFolder, archFolder] archFolder
    (by decide) (by decide) (by decide) (by decide) (by decide) rfl
    (by decide) (by decide) (by decide)

/-! Claim C8. -/

/-- C8: a run whose extraction yields zero PdfEntry (in particular any run
with zero messages) never invokes the batch uploader, issues no archive
call, and ends in success. -/
theorem c8_zero_entries_no_upload_no_archive (env : Env) (tok : String)
    (msgs : List Message) (ids : List String) (cF : Nat)
    (ha : (authenticate_graph env.authOutcome).result = .ok tok)
    (hf : (fetch_emails env.FOLDER_NAME env.foldersResp env.messagesResp).result
      = .ok msgs)
    (hx : extractFromMessages env.b64decode env.attachResp msgs 1
      = .ok ([], ids, cF)) :
    (main env).uploadCalls = 0 ∧ (main env).moveCalls = []
      ∧ (main env).caught = none := by
  by_cases hm : msgs = []
  · subst hm
    rw [main_no_messages env tok ha hf]
    exact ⟨rfl, rfl, rfl⟩
  · rw [main_with_messages env tok msgs ha hf hm]
    rw [process_attachments_no_parts env.b64decode env.attachResp
      env.uploadOutcome env.archFoldersResp env.moveOk msgs ids cF hx]
    exact ⟨rfl, rfl, rfl⟩

/-- Witness for C8 at the empty-source-folder run env0. -/
theorem c8_witness :
    (main env0).uploadCalls = 0 ∧ (main env0).moveCalls = []
      ∧ (main env0).caught = none :=
  c8_zero_entries_no_upload_no_archive env0 "token" [] [] 1
    (by decide) (by decide) (by decide)

/-! Claim C10. -/

/-- C10: when no folder bears the configured source display name, the
folder-not-found error of fetch_emails is raised on the first attempt as a
plain (non-transport) exception that the retry handler does not catch: one
folders GET, no sleep, no messages listing; the run then performs no
upload and no move and merely logs the error. -/
theorem c10_missing_source_folder_fails_fast (env : Env) (tok : String)
    (folders : List Folder)
    (ha : (authenticate_graph env.authOutcome).result = .ok tok)
    (h1 : env.foldersResp 1 = .ok folders)
    (h2 : ∀ f ∈ folders, ¬ f.displayName = env.FOLDER_NAME) :
    fetch_emails env.FOLDER_NAME env.foldersResp env.messagesResp
        = { attempts := 1, sleeps := [], messageListCalls := 0,
            result := .error (.appErr
              ("Ordner " ++ env.FOLDER_NAME ++ " nicht gefunden.")) }
      ∧ (main env).uploadCalls = 0 ∧ (main env).moveCalls = []
      ∧ (main env).caught
        = some (.appErr ("Ordner " ++ env.FOLDER_NAME ++ " nicht gefunden.")) := by
  have hfe := fetch_emails_source_missing env.FOLDER_NAME env.foldersResp
    env.messagesResp folders h1 h2
  refine ⟨hfe, ?_⟩
  have hr : (fetch_emails env.FOLDER_NAME env.foldersResp env.messagesResp).result
      = .error (.appErr ("Ordner " ++ env.FOLDER_NAME ++ " nicht gefunden.")) := by
    rw [hfe]
  rw [main_fetch_error env tok _ ha hr]
  exact ⟨rfl, rfl, rfl⟩

/-- Witness for C10 at the concrete run env3a whose mailbox lacks the
source folder. -/
theorem c10_witness :
    fetch_emails env3a.FOLDER_NAME env3a.foldersResp env3a.messagesResp
        = { attempts := 1, sleeps := [], messageListCalls := 0,
            result := .error (.appErr
              ("Ordner " ++ env3a.FOLDER_NAME ++ " nicht gefunden.")) }
      ∧ (main env3a).uploadCalls = 0 ∧ (main env3a).moveCalls = []
      ∧ (main env3a).caught
        = some (.appErr ("Ordner " ++ env3a.FOLDER_NAME ++ " nicht gefunden.")) :=
  c10_missing_source_folder_fails_fast env3a "token" [archFolder]
    (by decide) rfl (by decide)

end Weclappocr
